import Mathlib

/-!
Shallow embedding of the yattmcp TickTick MCP server
(src/yattmcp/normalizers.py, src/yattmcp/server.py) in Lean 4.

Python dicts holding JSON data are modelled as insertion-ordered
association lists over a JSON value type `JVal`; Python exceptions that
escape a function are modelled with `Except PyErr`; the `httpx` provider
calls are abstracted as oracle parameters (`Except Nat body`, the `Nat`
being the non-2xx status code of an `HTTPStatusError`).  `json.dumps` at
the tool boundary is abstracted away: tool operations return the `JVal`
that would be serialized.
-/

/-- JSON-ish values as stored in Python dicts in this code base. -/
inductive JVal where
  | null : JVal
  | bool : Bool → JVal
  | num : Int → JVal
  | str : String → JVal
  | arr : List JVal → JVal
  | obj : List (String × JVal) → JVal

/-- A Python dict with string keys, in insertion order. -/
abbrev JObj := List (String × JVal)

/-- Uncaught Python exceptions relevant to this code base.  `valueError`
carries the message (used where the code calls `str(e)`). -/
inductive PyErr where
  | keyError : PyErr
  | typeError : PyErr
  | valueError : String → PyErr
deriving DecidableEq

/-- Dict lookup: `d[k]` / `d.get(k)`, first binding wins (keys are unique
in dicts built by this code; assoc-list first-match models that). -/
def lookup (d : JObj) (k : String) : Option JVal :=
  match d with
  | [] => none
  | (k2, v) :: rest => if k2 = k then some v else lookup rest k

/-- Python `d.get(k, default)`. -/
def getD (d : JObj) (k : String) (dflt : JVal) : JVal :=
  match lookup d k with
  | some v => v
  | none => dflt

/-- Python `d[k] = v`: replace in place if the key exists, else append
(dicts preserve insertion order and append new keys at the end). -/
def setKey (d : JObj) (k : String) (v : JVal) : JObj :=
  match d with
  | [] => [(k, v)]
  | (k2, w) :: rest => if k2 = k then (k, v) :: rest else (k2, w) :: setKey rest k v

/-- Apply a sequence of dict assignments in order. -/
def applyOps (d : JObj) (ops : List (String × JVal)) : JObj :=
  ops.foldl (fun acc kv => setKey acc kv.1 kv.2) d

/-- The last value assigned to key `k` by a list of dict assignments,
if any. -/
def lastVal (k : String) : List (String × JVal) → Option JVal
  | [] => none
  | (k2, v) :: rest =>
    match lastVal k rest with
    | some w => some w
    | none => if k2 = k then some v else none

/-- Python truthiness of a JSON value. -/
def pyTruthy (v : JVal) : Bool :=
  match v with
  | .null => false
  | .bool b => b
  | .num n => n ≠ 0
  | .str s => s ≠ ""
  | .arr xs => !xs.isEmpty
  | .obj fs => !fs.isEmpty

/-- Truthiness of an optional-string parameter (`if x:` on `str | None`). -/
def optTruthy (o : Option String) : Bool :=
  match o with
  | some s => s ≠ ""
  | none => false

/-- Python `v != 0` for a JSON value (`True != 0` is `False` since
`True == 1`; values of other non-numeric types are never equal to 0). -/
def pyNeZero (v : JVal) : Bool :=
  match v with
  | .num n => n ≠ 0
  | .bool b => b
  | _ => true

/-- Python `v != s` against a known string (cross-type compares unequal). -/
def pyNeStr (v : JVal) (s : String) : Bool :=
  match v with
  | .str s2 => s2 ≠ s
  | _ => true

/-- Character-list version of `needle` being a prefix of `hay`. -/
def startsWithCs (needle hay : List Char) : Bool :=
  match needle, hay with
  | [], _ => true
  | _ :: _, [] => false
  | a :: as, b :: bs => a = b && startsWithCs as bs

/-- Character-list substring test, Python `needle in hay`. -/
def containsCs (needle hay : List Char) : Bool :=
  match hay with
  | [] => startsWithCs needle []
  | _ :: t => startsWithCs needle hay || containsCs needle t

/-- Python `needle in hay` on strings. -/
def strIn (needle hay : String) : Bool :=
  containsCs needle.data hay.data

/-- Python `str.lower()` on one character (ASCII case mapping; the
non-ASCII case table is elided — no label this code compares against is
non-ASCII). -/
def pyLowerChar (c : Char) : Char :=
  if 65 ≤ c.toNat ∧ c.toNat ≤ 90 then Char.ofNat (c.toNat + 32) else c

/-- Python `str.lower()`. -/
def pyLower (s : String) : String := ⟨s.data.map pyLowerChar⟩

/-- Python whitespace as `str.strip()` removes it (ASCII part). -/
def pyIsSpace (c : Char) : Bool := c.toNat = 32 ∨ (9 ≤ c.toNat ∧ c.toNat ≤ 13)

/-- Python `str.strip()`: drop whitespace from both ends. -/
def pyStrip (s : String) : String :=
  ⟨((s.data.dropWhile pyIsSpace).reverse.dropWhile pyIsSpace).reverse⟩

-- ## Priority (normalizers.py: priority_to_api / priority_from_api)

/-- Single-quote character, for rendering Python `repr` of the strings
used in error messages. -/
def sglq : String := String.singleton (Char.ofNat 39)

/-- Embeds `priority_to_api`: membership test in the `_PRIORITY_TO_API`
dict `\x7b"none": 0, "low": 1, "medium": 3, "high": 5\x7d` after
`.lower().strip()`, raising `ValueError` (here: `.error msg`) otherwise. -/
def priority_to_api (priority : String) : Except String Int :=
  let key := pyStrip (pyLower priority)
  if key = "none" then .ok 0
  else if key = "low" then .ok 1
  else if key = "medium" then .ok 3
  else if key = "high" then .ok 5
  else .error ("Invalid priority " ++ sglq ++ priority ++ sglq ++
    ". Must be one of: none, low, medium, high")

/-- Embeds `priority_from_api`: `_PRIORITY_FROM_API.get(priority, "none")`
over the integers. -/
def priority_from_api (priority : Int) : String :=
  if priority = 0 then "none"
  else if priority = 1 then "low"
  else if priority = 3 then "medium"
  else if priority = 5 then "high"
  else "none"

/-- Embeds the `priority_from_api` call as it happens inside
`normalize_task` on the raw JSON field `task.get("priority", 0)`: Python
dict `.get` hashes the key, so an unhashable value (list/dict) raises
`TypeError`; `True`/`False` hash like `1`/`0`; any other hashable
non-integer key is simply absent from the map and yields `"none"`. -/
def priority_from_api_j (v : JVal) : Except PyErr String :=
  match v with
  | .num n => .ok (priority_from_api n)
  | .bool b => .ok (priority_from_api (if b then 1 else 0))
  | .str _ => .ok "none"
  | .null => .ok "none"
  | .arr _ => .error .typeError
  | .obj _ => .error .typeError

-- ## Dates (normalizers.py: date_to_api / date_from_api)
-- Python datetimes are embedded as a record of calendar fields plus an
-- optional UTC offset in minutes (`tz = none` models a naive datetime).
-- `datetime.fromisoformat` is embedded for the grammar this code relies
-- on: `YYYY-MM-DD`, optionally a one-char separator and `HH:MM[:SS]`,
-- optionally an offset `Z`, `+HH`, `+HHMM` or `+HH:MM` (signs allowed).
-- Fractional seconds and basic-format (dashless) dates are outside the
-- embedded subset; no claim exercises them.

/-- A Python `datetime`; `tz` is the UTC offset in minutes, `none` when
the datetime is naive. -/
structure PyDateTime where
  year : Nat
  month : Nat
  day : Nat
  hour : Nat
  minute : Nat
  second : Nat
  tz : Option Int
deriving DecidableEq, Repr

/-- Gregorian leap year. -/
def isLeap (y : Nat) : Bool := (y % 4 = 0 && y % 100 ≠ 0) || y % 400 = 0

/-- Days in a month, as `datetime` validates them. -/
def daysInMonth (y m : Nat) : Nat :=
  if m = 2 then (if isLeap y then 29 else 28)
  else if m = 4 ∨ m = 6 ∨ m = 9 ∨ m = 11 then 30
  else 31

/-- Decimal value of a digit character. -/
def dv (c : Char) : Nat := c.toNat - 48

/-- Parse the mandatory `YYYY-MM-DD` head, returning the rest. -/
def parseDate (cs : List Char) : Option (Nat × Nat × Nat × List Char) :=
  match cs with
  | a :: b :: c :: d :: s1 :: e :: f :: s2 :: g :: h :: rest =>
    if a.isDigit && b.isDigit && c.isDigit && d.isDigit && s1 = '-' &&
       e.isDigit && f.isDigit && s2 = '-' && g.isDigit && h.isDigit then
      let y := dv a * 1000 + dv b * 100 + dv c * 10 + dv d
      let mo := dv e * 10 + dv f
      let dd := dv g * 10 + dv h
      if 1 ≤ y ∧ 1 ≤ mo ∧ mo ≤ 12 ∧ 1 ≤ dd ∧ dd ≤ daysInMonth y mo then
        some (y, mo, dd, rest)
      else none
    else none
  | _ => none

/-- Parse `HH:MM` with optional `:SS`, returning the rest. -/
def parseTime (cs : List Char) : Option (Nat × Nat × Nat × List Char) :=
  match cs with
  | a :: b :: c1 :: c :: d :: rest =>
    if a.isDigit && b.isDigit && c1 = ':' && c.isDigit && d.isDigit then
      let hh := dv a * 10 + dv b
      let mi := dv c * 10 + dv d
      if hh ≤ 23 ∧ mi ≤ 59 then
        match rest with
        | c2 :: e :: f :: rest2 =>
          if c2 = ':' && e.isDigit && f.isDigit then
            let ss := dv e * 10 + dv f
            if ss ≤ 59 then some (hh, mi, ss, rest2) else none
          else some (hh, mi, 0, rest)
        | _ => some (hh, mi, 0, rest)
      else none
    else none
  | _ => none

/-- Build a signed offset in minutes. -/
def mkOff (neg : Bool) (hh mi : Nat) : Option (Option Int) :=
  if hh ≤ 23 ∧ mi ≤ 59 then
    some (some (if neg then -((hh : Int) * 60 + mi) else (hh : Int) * 60 + mi))
  else none

/-- Parse the optional trailing UTC offset; the whole remainder must be
consumed.  `some none` means a naive result (no offset present). -/
def parseTz (cs : List Char) : Option (Option Int) :=
  match cs with
  | [] => some none
  | ['Z'] => some (some 0)
  | sign :: rest =>
    if sign = '+' ∨ sign = '-' then
      let neg := sign = '-'
      match rest with
      | [a, b] =>
        if a.isDigit && b.isDigit then mkOff neg (dv a * 10 + dv b) 0 else none
      | [a, b, c, d] =>
        if a.isDigit && b.isDigit && c.isDigit && d.isDigit then
          mkOff neg (dv a * 10 + dv b) (dv c * 10 + dv d)
        else none
      | [a, b, c1, c, d] =>
        if a.isDigit && b.isDigit && c1 = ':' && c.isDigit && d.isDigit then
          mkOff neg (dv a * 10 + dv b) (dv c * 10 + dv d)
        else none
      | _ => none
    else none

/-- Character-level body of `fromisoformat`: date, then optionally one
separator character (Python 3.11 accepts any) followed by a time and an
optional offset. -/
def parseIsoChars (cs : List Char) : Option PyDateTime :=
  match parseDate cs with
  | none => none
  | some (y, mo, dd, rest) =>
    match rest with
    | [] => some ⟨y, mo, dd, 0, 0, 0, none⟩
    | _ :: timeCs =>
      match parseTime timeCs with
      | none => none
      | some (hh, mi, ss, rest2) =>
        match parseTz rest2 with
        | none => none
        | some tz => some ⟨y, mo, dd, hh, mi, ss, tz⟩

/-- Embeds `datetime.fromisoformat` (raising = `none`). -/
def fromisoformat (s : String) : Option PyDateTime := parseIsoChars s.data

/-- Zero-pad to two digits. -/
def pad2 (n : Nat) : String := if n < 10 then "0" ++ toString n else toString n

/-- Zero-pad to four digits. -/
def pad4 (n : Nat) : String :=
  if n < 10 then "000" ++ toString n
  else if n < 100 then "00" ++ toString n
  else if n < 1000 then "0" ++ toString n
  else toString n

/-- Offset rendered as `strftime("%z")` does: sign then `HHMM`. -/
def fmtOffsetNoColon (off : Int) : String :=
  (if off < 0 then "-" else "+") ++ pad2 (off.natAbs / 60) ++ pad2 (off.natAbs % 60)

/-- Offset rendered as `datetime.isoformat` does: sign then `HH:MM`. -/
def fmtOffsetColon (off : Int) : String :=
  (if off < 0 then "-" else "+") ++ pad2 (off.natAbs / 60) ++ ":" ++ pad2 (off.natAbs % 60)

/-- The common `YYYY-MM-DDTHH:MM:SS` part of both output formats. -/
def fmtBase (dt : PyDateTime) : String :=
  pad4 dt.year ++ "-" ++ pad2 dt.month ++ "-" ++ pad2 dt.day ++ "T" ++
  pad2 dt.hour ++ ":" ++ pad2 dt.minute ++ ":" ++ pad2 dt.second

/-- Embeds `dt.strftime("%Y-%m-%dT%H:%M:%S%z")` (`%z` is empty for a
naive datetime). -/
def strftime_z (dt : PyDateTime) : String :=
  fmtBase dt ++ (match dt.tz with | none => "" | some off => fmtOffsetNoColon off)

/-- Embeds `dt.isoformat()` for whole-second datetimes. -/
def pyIsoformat (dt : PyDateTime) : String :=
  fmtBase dt ++ (match dt.tz with | none => "" | some off => fmtOffsetColon off)

/-- Days in the months of year `y` strictly before month `m`. -/
def daysBeforeMonth (y m : Nat) : Nat :=
  (List.range (m - 1)).foldl (fun acc i => acc + daysInMonth y (i + 1)) 0

/-- Leap years in `1..n`. -/
def leapCount (n : Nat) : Nat := n / 4 - n / 100 + n / 400

/-- Days from 0001-01-01 to the given civil date. -/
def daysFromYear1 (y m d : Nat) : Nat :=
  365 * (y - 1) + leapCount (y - 1) + daysBeforeMonth y m + (d - 1)

/-- UTC instant of a datetime in seconds (offset subtracted); for a naive
datetime this is its field value with offset 0, which makes
naive/naive comparison agree with Python field-wise comparison. -/
def toInstant (dt : PyDateTime) : Int :=
  (daysFromYear1 dt.year dt.month dt.day : Int) * 86400
    + dt.hour * 3600 + dt.minute * 60 + dt.second
    - (dt.tz.getD 0) * 60

/-- Embeds Python comparison of two datetimes: aware/naive mixes raise
`TypeError`; otherwise instants are compared. -/
def cmpDT (a b : PyDateTime) : Except PyErr Ordering :=
  match a.tz, b.tz with
  | some _, some _ => .ok (compare (toInstant a) (toInstant b))
  | none, none => .ok (compare (toInstant a) (toInstant b))
  | _, _ => .error .typeError

/-- Embeds `date_to_api`: parse, record whether the input was a bare
10-character date, force UTC on naive datetimes, format. -/
def date_to_api (date_str : String) : Option (String × Bool) :=
  match fromisoformat date_str with
  | none => none
  | some dt =>
    let is_all_day := date_str.length = 10
    let dt2 := if dt.tz.isNone then { dt with tz := some 0 } else dt
    some (strftime_z dt2, is_all_day)

/-- Embeds `date_from_api` as applied to the raw JSON field inside
`normalize_task`: falsy input (None, "") yields None; a string is parsed
(`ValueError` on failure) and re-emitted with `isoformat()`; a truthy
non-string raises `TypeError` inside `fromisoformat`. -/
def date_from_api (v : JVal) : Except PyErr JVal :=
  if pyTruthy v = false then .ok .null
  else match v with
    | .str s =>
      match fromisoformat s with
      | some dt => .ok (.str (pyIsoformat dt))
      | none => .error (.valueError ("Invalid isoformat string: " ++ sglq ++ s ++ sglq))
    | _ => .error .typeError

-- ## Subtasks (normalizers.py: subtask_to_api / subtask_from_api)
-- AttributeError / TypeError raised by using a non-dict where a dict is
-- expected are both modelled as `PyErr.typeError`.

/-- Embeds `subtask_to_api`: `\x7b"title": subtask["title"], "status": 1 if
subtask.get("isCompleted", False) else 0\x7d`. -/
def subtask_to_api (s : JVal) : Except PyErr JVal :=
  match s with
  | .obj o =>
    match lookup o "title" with
    | none => .error .keyError
    | some t =>
      .ok (.obj [("title", t),
        ("status", .num (if pyTruthy (getD o "isCompleted" (.bool false)) then 1 else 0))])
  | _ => .error .typeError

/-- Embeds `subtask_from_api`: id defaulted to None, title to "", and
`status != 0` as the completion flag. -/
def subtask_from_api (item : JVal) : Except PyErr JVal :=
  match item with
  | .obj o =>
    .ok (.obj [("id", getD o "id" .null),
      ("title", getD o "title" (.str "")),
      ("isCompleted", .bool (pyNeZero (getD o "status" (.num 0))))])
  | _ => .error .typeError

-- ## Task / project normalization (normalizers.py)

/-- Python `d[k]`: the value, or a `KeyError`. -/
def dictGetItem (d : JObj) (k : String) : Except PyErr JVal :=
  match lookup d k with
  | some v => .ok v
  | none => .error .keyError

/-- The subtasks block of `normalize_task`: a truthy `items` must be a
list (of dicts) and is decoded element-wise, a falsy one yields `[]`. -/
def itemsDecode (itemsV : JVal) : Except PyErr JVal :=
  if pyTruthy itemsV then
    match itemsV with
    | .arr xs => (xs.mapM subtask_from_api).map JVal.arr
    | _ => .error .typeError
  else .ok (.arr [])

/-- Embeds `normalize_task`.  The Python dict literal evaluates its
values in order (`task["id"]` first, then the defensive `.get`s and the
priority decode), then the two date fields are assigned, then
`subtasks`; the resulting dict equals this literal association list, and
the failure points occur in the same order as here. -/
def normalize_task (task : JObj) : Except PyErr JObj := do
  let idv ← dictGetItem task "id"
  let pr ← priority_from_api_j (getD task "priority" (.num 0))
  let dueV ← date_from_api (getD task "dueDate" .null)
  let startV ← date_from_api (getD task "startDate" .null)
  let subs ← itemsDecode (getD task "items" .null)
  return [("id", idv),
    ("projectId", getD task "projectId" (.str "")),
    ("title", getD task "title" (.str "")),
    ("content", getD task "content" (.str "")),
    ("priority", .str pr),
    ("isCompleted", .bool (pyNeZero (getD task "status" (.num 0)))),
    ("isAllDay", getD task "isAllDay" (.bool false)),
    ("dueDate", dueV),
    ("startDate", startV),
    ("subtasks", subs)]

/-- Embeds `normalize_task` applied to an arbitrary JSON value (a
non-dict raises on its first subscript). -/
def normalize_task_v (t : JVal) : Except PyErr JObj :=
  match t with
  | .obj o => normalize_task o
  | _ => .error .typeError

/-- Embeds `normalize_project`. -/
def normalize_project (project : JObj) : Except PyErr JObj :=
  match lookup project "id" with
  | none => .error .keyError
  | some idv => .ok [("id", idv),
      ("name", getD project "name" (.str "")),
      ("color", getD project "color" .null),
      ("viewMode", getD project "viewMode" .null),
      ("isClosed", getD project "closed" (.bool false))]

-- ## Tool operations (server.py)
-- Provider calls are oracle parameters: `Except Nat body` is the call's
-- outcome, the `Nat` being `e.response.status_code` of the
-- `httpx.HTTPStatusError` raised on a non-2xx response.  A tool
-- operation returns `Except PyErr JVal`: `.ok v` means the operation
-- returned the string `json.dumps(v)`, `.error e` means the uncaught
-- Python exception `e` escaped the operation.

/-- Embeds `_error`: the value serialized by
`json.dumps(\x7b"error": msg\x7d)`. -/
def errVal (msg : String) : JVal := .obj [("error", .str msg)]

/-- Python `repr` of a string: quotes elided of escaping (exact for the
quote-free, backslash-free strings this embedding manipulates). -/
def pyRepr (s : String) : String := sglq ++ s ++ sglq

/-- The synthetic Inbox entry injected by `ticktick_list_projects`. -/
def inboxEntry (inbox_id : String) : JObj :=
  [("id", .str inbox_id), ("name", .str "Inbox"), ("color", .null),
   ("viewMode", .null), ("isClosed", .bool false)]

/-- Embeds `ticktick_list_projects`. -/
def ticktick_list_projects (resp : Except Nat (List JObj)) (inbox_id : Option String) :
    Except PyErr JVal :=
  match resp with
  | .error code => .ok (errVal ("Failed to list projects: " ++ toString code))
  | .ok projects => do
    let result ← projects.mapM normalize_project
    let result := if optTruthy inbox_id then inboxEntry (inbox_id.getD "") :: result
                  else result
    return .arr (result.map .obj)

/-- Embeds iterating `data.get("tasks", [])`: a JSON array yields its
elements; an empty string/dict iterates to nothing; any other non-array
either is not iterable or yields non-dict elements on which
`normalize_task` raises immediately, collapsed here to `typeError`. -/
def iterTasks (v : JVal) : Except PyErr (List JVal) :=
  match v with
  | .arr xs => .ok xs
  | .str s => if s = "" then .ok [] else .error .typeError
  | .obj fs => if fs.isEmpty then .ok [] else .error .typeError
  | _ => .error .typeError

/-- Embeds `ticktick_get_project_tasks`. -/
def ticktick_get_project_tasks (resp : Except Nat JObj) : Except PyErr JVal :=
  match resp with
  | .error code => .ok (errVal ("Failed to get project tasks: " ++ toString code))
  | .ok data => do
    let ts ← iterTasks (getD data "tasks" (.arr []))
    let normd ← ts.mapM normalize_task_v
    return .arr (normd.map .obj)

/-- Embeds the payload construction of `ticktick_create_project`. -/
def createProjectPayload (name : String) (color view_mode : Option String) : JObj :=
  let payload : JObj := [("name", .str name)]
  let payload := match color with
    | some c => setKey payload "color" (.str c)
    | none => payload
  match view_mode with
  | some v => setKey payload "viewMode" (.str v)
  | none => payload

/-- Embeds `ticktick_create_project`. -/
def ticktick_create_project (resp : Except Nat JObj) : Except PyErr JVal :=
  match resp with
  | .error code => .ok (errVal ("Failed to create project: " ++ toString code))
  | .ok result =>
    match normalize_project result with
    | .ok np => .ok (.obj np)
    | .error e => .error e

/-- Embeds `ticktick_delete_project`. -/
def ticktick_delete_project (project_id : String) (resp : Except Nat Unit) :
    Except PyErr JVal :=
  match resp with
  | .error code => .ok (errVal ("Failed to delete project: " ++ toString code))
  | .ok _ => .ok (.obj [("deleted", .bool true), ("projectId", .str project_id)])

/-- Embeds `ticktick_get_task`. -/
def ticktick_get_task (resp : Except Nat JObj) : Except PyErr JVal :=
  match resp with
  | .error code => .ok (errVal ("Failed to get task: " ++ toString code))
  | .ok task =>
    match normalize_task task with
    | .ok nt => .ok (.obj nt)
    | .error e => .error e

/-- How a tool operation stops early while building a payload:
`handled msg` models `return _error(msg)`, `raised e` an uncaught
exception. -/
inductive ToolStop where
  | handled : String → ToolStop
  | raised : PyErr → ToolStop
deriving DecidableEq

/-- Arguments of `ticktick_create_task` (the caller-controllable ones). -/
structure CreateTaskArgs where
  title : String
  project_id : Option String
  content : Option String
  priority : String
  due_date : Option String
  start_date : Option String
  is_all_day : Option Bool
  subtasks : Option (List JVal)

/-- Arguments of `ticktick_update_task` (the optional field overrides). -/
structure UpdateTaskArgs where
  title : Option String
  content : Option String
  priority : Option String
  due_date : Option String
  start_date : Option String
  is_all_day : Option Bool
  subtasks : Option (List JVal)

/-- One date-field block shared by create/update: encode the date if
supplied, produce the dict assignment for it, and adopt the inferred
all-day flag when none has been decided yet (`if all_day is None`). -/
def dateOps (field argname : String) (d : Option String) (all_day : Option Bool) :
    Except ToolStop (List (String × JVal) × Option Bool) :=
  match d with
  | none => .ok ([], all_day)
  | some ds =>
    match date_to_api ds with
    | some (api_date, d_all) =>
      .ok ([(field, .str api_date)],
        if all_day = none then some d_all else all_day)
    | none => .error (.handled ("Invalid " ++ argname ++ " format: " ++ pyRepr ds))

/-- The assignment `d[key] = v` performed when an optional string field
was supplied (`if x is not None:`). -/
def optStrOps (key : String) (v : Option String) : List (String × JVal) :=
  match v with
  | some s => [(key, .str s)]
  | none => []

/-- The priority assignment: encode when supplied, a handled error on an
invalid label (`return _error(str(e))`). -/
def priorityOps (p : Option String) : Except ToolStop (List (String × JVal)) :=
  match p with
  | none => .ok []
  | some pv =>
    match priority_to_api pv with
    | .ok n => .ok [("priority", .num n)]
    | .error m => .error (.handled m)

/-- The trailing `if all_day is not None: d["isAllDay"] = all_day`. -/
def allDayOps (all_day : Option Bool) : List (String × JVal) :=
  match all_day with
  | some b => [("isAllDay", .bool b)]
  | none => []

/-- The subtask assignment of `ticktick_update_task`
(`if subtasks is not None:` — an empty supplied list still assigns). -/
def itemsOpsUpdate (subtasks : Option (List JVal)) :
    Except ToolStop (List (String × JVal)) :=
  match subtasks with
  | none => .ok []
  | some subs =>
    match subs.mapM subtask_to_api with
    | .ok l => .ok [("items", .arr l)]
    | .error e => .error (.raised e)

/-- The subtask assignment of `ticktick_create_task` (`if subtasks:` —
falsy, so also an empty supplied list, assigns nothing). -/
def itemsOpsCreate (subtasks : Option (List JVal)) :
    Except ToolStop (List (String × JVal)) :=
  match subtasks with
  | none => .ok []
  | some subs =>
    if subs.isEmpty then .ok []
    else match subs.mapM subtask_to_api with
      | .ok l => .ok [("items", .arr l)]
      | .error e => .error (.raised e)

/-- The sequence of dict assignments `ticktick_update_task` performs on
the fetched task, in source order (title, content, priority, dueDate,
startDate, isAllDay, items).  None of the assignments reads the dict, so
the source's in-place mutation equals applying this list in order. -/
def updateOps (a : UpdateTaskArgs) : Except ToolStop (List (String × JVal)) := do
  let pOps ← priorityOps a.priority
  let (dOps, allDay1) ← dateOps "dueDate" "due_date" a.due_date a.is_all_day
  let (sOps, allDay2) ← dateOps "startDate" "start_date" a.start_date allDay1
  let iOps ← itemsOpsUpdate a.subtasks
  return optStrOps "title" a.title ++ optStrOps "content" a.content ++
    pOps ++ dOps ++ sOps ++ allDayOps allDay2 ++ iOps

/-- Embeds the fetch-merge step of `ticktick_update_task`: the merged
object sent to the provider's update endpoint. -/
def updateMerge (existing : JObj) (a : UpdateTaskArgs) : Except ToolStop JObj :=
  (updateOps a).map (applyOps existing)

/-- The `try: priority_to_api(...) except ValueError: return _error(str(e))`
block of `ticktick_create_task` (update spells it through `priorityOps`). -/
def priorityEnc (p : String) : Except ToolStop Int :=
  match priority_to_api p with
  | .ok n => .ok n
  | .error m => .error (.handled m)

/-- Embeds the payload construction of `ticktick_create_task`: resolve
the project (`project_id or inbox_id`, error when falsy), encode the
priority, then the dict literal followed by the same conditional
assignments as the update path (`if subtasks:` makes an empty supplied
list send no `items`). -/
def createTaskPayload (a : CreateTaskArgs) (inbox_id : Option String) :
    Except ToolStop JObj :=
  let resolved : Option String := if optTruthy a.project_id then a.project_id else inbox_id
  if optTruthy resolved = false then
    .error (.handled ("No project_id provided and no Inbox project configured. " ++
      "Call ticktick_list_projects first to get a project ID."))
  else do
    let api_priority ← priorityEnc a.priority
    let base : JObj := [("title", JVal.str a.title),
      ("projectId", JVal.str (resolved.getD "")),
      ("priority", JVal.num api_priority)]
    let (dOps, allDay1) ← dateOps "dueDate" "due_date" a.due_date a.is_all_day
    let (sOps, allDay2) ← dateOps "startDate" "start_date" a.start_date allDay1
    let iOps ← itemsOpsCreate a.subtasks
    return applyOps base (optStrOps "content" a.content ++ dOps ++ sOps ++
      allDayOps allDay2 ++ iOps)

/-- Embeds `ticktick_create_task`. -/
def ticktick_create_task (a : CreateTaskArgs) (inbox_id : Option String)
    (resp : Except Nat JObj) : Except PyErr JVal :=
  match createTaskPayload a inbox_id with
  | .error (.handled m) => .ok (errVal m)
  | .error (.raised e) => .error e
  | .ok _payload =>
    match resp with
    | .error code => .ok (errVal ("Failed to create task: " ++ toString code))
    | .ok result =>
      match normalize_task result with
      | .ok nt => .ok (.obj nt)
      | .error e => .error e

/-- Embeds `ticktick_update_task`: fetch, merge, send the merged object
(`updateCall` is the provider update endpoint, applied to exactly the
merged payload), normalize the response. -/
def ticktick_update_task (a : UpdateTaskArgs) (fetchResp : Except Nat JObj)
    (updateCall : JObj → Except Nat JObj) : Except PyErr JVal :=
  match fetchResp with
  | .error code => .ok (errVal ("Failed to fetch task for update: " ++ toString code))
  | .ok existing =>
    match updateMerge existing a with
    | .error (.handled m) => .ok (errVal m)
    | .error (.raised e) => .error e
    | .ok merged =>
      match updateCall merged with
      | .error code => .ok (errVal ("Failed to update task: " ++ toString code))
      | .ok result =>
        match normalize_task result with
        | .ok nt => .ok (.obj nt)
        | .error e => .error e

/-- Embeds `ticktick_complete_task`. -/
def ticktick_complete_task (task_id : String) (resp : Except Nat Unit) :
    Except PyErr JVal :=
  match resp with
  | .error code => .ok (errVal ("Failed to complete task: " ++ toString code))
  | .ok _ => .ok (.obj [("completed", .bool true), ("taskId", .str task_id)])

-- ## Search (server.py: ticktick_search_tasks)

/-- Arguments of `ticktick_search_tasks`. -/
structure SearchArgs where
  query : Option String
  project_id : Option String
  priority : Option String
  due_before : Option String
  due_after : Option String

/-- Models `(v or "").lower()` on a fetched title/content field: falsy
values collapse to `""`, a string is lowercased, `.lower()` on any other
truthy value raises (AttributeError, collapsed to `typeError`). -/
def strOrEmptyLower (v : JVal) : Except PyErr String :=
  if pyTruthy v = false then .ok ""
  else match v with
    | .str s => .ok (pyLower s)
    | _ => .error .typeError

/-- The query-filter step of the per-task filter of
`ticktick_search_tasks`: when a truthy query is given, the task passes
this step iff the lowercased query occurs in the lowercased title or
content (`if q not in title and q not in content: continue`). -/
def queryFilter (q : Option String) (t : JObj) : Except PyErr Bool :=
  if optTruthy q then
    let ql := pyLower (q.getD "")
    match strOrEmptyLower (getD t "title" .null) with
    | .error e => .error e
    | .ok title =>
      match strOrEmptyLower (getD t "content" .null) with
      | .error e => .error e
      | .ok content => .ok (strIn ql title || strIn ql content)
  else .ok true

/-- The priority-filter step: when a validated target label is given,
the task passes iff `normalized["priority"]` equals it. -/
def priorityFilter (tp : Option String) (t : JObj) : Except PyErr Bool :=
  if optTruthy tp then
    match dictGetItem t "priority" with
    | .error e => .error e
    | .ok pv => .ok (!pyNeStr pv (tp.getD ""))
  else .ok true

/-- The `dt_after` half of the date-bound step: the task passes iff its
due datetime is strictly greater (`if dt_after and task_due <= dt_after:
continue`). -/
def afterCheck (dtA : Option PyDateTime) (task_due : PyDateTime) :
    Except PyErr Bool :=
  match dtA with
  | some adt =>
    (match cmpDT task_due adt with
      | .error e => .error e
      | .ok c => if c ≠ Ordering.gt then .ok false else .ok true)
  | none => .ok true

/-- The date-bound step: active when either bound is set; a falsy due
date fails it outright; otherwise the due string is re-parsed and the
strict `>= dt_before` / `<= dt_after` exclusions applied in order. -/
def dateFilter (dtB dtA : Option PyDateTime) (t : JObj) : Except PyErr Bool :=
  if dtB.isSome ∨ dtA.isSome then
    let due := getD t "dueDate" .null
    if pyTruthy due = false then .ok false
    else
      match due with
      | .str ds =>
        (match fromisoformat ds with
          | none => .error (.valueError ("Invalid isoformat string: " ++ pyRepr ds))
          | some task_due =>
            match dtB with
            | some bdt =>
              (match cmpDT task_due bdt with
                | .error e => .error e
                | .ok c =>
                  if c ≠ Ordering.lt then .ok false
                  else afterCheck dtA task_due)
            | none => afterCheck dtA task_due)
      | _ => .error .typeError
  else .ok true

/-- The per-task filter body of the fetch-and-filter loop of
`ticktick_search_tasks`: the source applies the three filter steps in
sequence, each `continue` (= not passing) short-circuiting the rest, so
the body is the short-circuit conjunction of the steps. -/
def taskPasses (q tp : Option String) (dtB dtA : Option PyDateTime) (t : JObj) :
    Except PyErr Bool :=
  match queryFilter q t with
  | .error e => .error e
  | .ok false => .ok false
  | .ok true =>
    match priorityFilter tp t with
    | .error e => .error e
    | .ok false => .ok false
    | .ok true => dateFilter dtB dtA t

/-- Normalize-and-filter over the tasks of one fetched project, in
order, collecting the normalized tasks that pass every filter. -/
def collectTasks (q tp : Option String) (dtB dtA : Option PyDateTime) :
    List JVal → Except PyErr (List JObj)
  | [] => .ok []
  | t :: rest => do
    let nt ← normalize_task_v t
    let pass ← taskPasses q tp dtB dtA nt
    let others ← collectTasks q tp dtB dtA rest
    if pass then return nt :: others else return others

/-- The fetch-and-filter loop over the scoped project ids: a fetch that
raises `HTTPStatusError` skips that project (`continue`), a successful
fetch contributes its passing tasks in order. -/
def searchLoop (fetch : JVal → Except Nat JObj) (q tp : Option String)
    (dtB dtA : Option PyDateTime) : List JVal → Except PyErr (List JObj)
  | [] => .ok []
  | pid :: rest =>
    match fetch pid with
    | .error _ => searchLoop fetch q tp dtB dtA rest
    | .ok data => do
      let ts ← iterTasks (getD data "tasks" (.arr []))
      let here ← collectTasks q tp dtB dtA ts
      let there ← searchLoop fetch q tp dtB dtA rest
      return here ++ there

/-- Embeds the scope determination of `ticktick_search_tasks`: a truthy
`project_id` searches only that project; otherwise the provider project
list is fetched (failing the call on error) and the configured inbox id
is appended when truthy. -/
def searchScope (a : SearchArgs) (listResp : Except Nat (List JObj))
    (inbox_id : Option String) : Except ToolStop (List JVal) :=
  if optTruthy a.project_id then .ok [.str (a.project_id.getD "")]
  else match listResp with
    | .error code => .error (.handled ("Failed to list projects: " ++ toString code))
    | .ok projects => do
      let pids ← projects.mapM (fun p => match lookup p "id" with
        | some v => pure v
        | none => throw (ToolStop.raised PyErr.keyError))
      if optTruthy inbox_id then
        return pids ++ [JVal.str (inbox_id.getD "")]
      else
        return pids

/-- Embeds the date-filter parsing of `ticktick_search_tasks`: a falsy
argument leaves the bound inactive; otherwise `fromisoformat`, with
naive results forced to UTC, and a handled error on parse failure. -/
def parseBoundDate (argname : String) (s : Option String) :
    Except ToolStop (Option PyDateTime) :=
  match s with
  | none => .ok none
  | some str =>
    if str = "" then .ok none
    else match fromisoformat str with
      | some dt => .ok (some (if dt.tz.isNone then { dt with tz := some 0 } else dt))
      | none => .error (.handled ("Invalid " ++ argname ++ " format: " ++ pyRepr str))

/-- Embeds the priority-filter validation of `ticktick_search_tasks`. -/
def parsePriorityFilter (p : Option String) : Except ToolStop (Option String) :=
  if optTruthy p = false then .ok none
  else
    let tp := pyStrip (pyLower (p.getD ""))
    if tp = "none" ∨ tp = "low" ∨ tp = "medium" ∨ tp = "high" then .ok (some tp)
    else .error (.handled ("Invalid priority filter " ++ pyRepr (p.getD "") ++
      ". Must be one of: none, low, medium, high"))

/-- Embeds `ticktick_search_tasks`: scope, date-filter parsing, priority
validation, then the fetch-and-filter loop. -/
def ticktick_search_tasks (a : SearchArgs) (listResp : Except Nat (List JObj))
    (inbox_id : Option String) (fetch : JVal → Except Nat JObj) : Except PyErr JVal :=
  match searchScope a listResp inbox_id with
  | .error (.handled m) => .ok (errVal m)
  | .error (.raised e) => .error e
  | .ok pids =>
    match parseBoundDate "due_before" a.due_before with
    | .error (.handled m) => .ok (errVal m)
    | .error (.raised e) => .error e
    | .ok dtB =>
      match parseBoundDate "due_after" a.due_after with
      | .error (.handled m) => .ok (errVal m)
      | .error (.raised e) => .error e
      | .ok dtA =>
        match parsePriorityFilter a.priority with
        | .error (.handled m) => .ok (errVal m)
        | .error (.raised e) => .error e
        | .ok tp =>
          match searchLoop fetch a.query tp dtB dtA pids with
          | .ok tasks => .ok (.arr (tasks.map .obj))
          | .error e => .error e

-- # Supporting lemmas

theorem except_bind_ok {ε α β : Type} {x : Except ε α} {f : α → Except ε β} {y : β}
    (h : x >>= f = .ok y) : ∃ z, x = .ok z ∧ f z = .ok y := by
  cases x with
  | ok z => exact ⟨z, rfl, h⟩
  | error e => simp [Bind.bind, Except.bind] at h

theorem lookup_setKey_self (d : JObj) (k : String) (v : JVal) :
    lookup (setKey d k v) k = some v := by
  induction d with
  | nil => simp [setKey, lookup]
  | cons kv rest ih =>
    obtain ⟨k2, w⟩ := kv
    by_cases h : k2 = k
    · simp [setKey, h, lookup]
    · simp [setKey, h, lookup, ih]

theorem lookup_setKey_ne (d : JObj) (k k2 : String) (v : JVal) (h : k2 ≠ k) :
    lookup (setKey d k v) k2 = lookup d k2 := by
  induction d with
  | nil => simp [setKey, lookup, Ne.symm h]
  | cons kv rest ih =>
    obtain ⟨k3, w⟩ := kv
    by_cases h3 : k3 = k
    · subst h3
      simp [setKey, lookup, Ne.symm h]
    · simp [setKey, h3, lookup, ih]

theorem lookup_applyOps (d : JObj) (ops : List (String × JVal)) (k : String) :
    lookup (applyOps d ops) k =
      match lastVal k ops with
      | some v => some v
      | none => lookup d k := by
  induction ops generalizing d with
  | nil => simp [applyOps, lastVal]
  | cons kv rest ih =>
    obtain ⟨k2, v⟩ := kv
    have h0 : applyOps d ((k2, v) :: rest) = applyOps (setKey d k2 v) rest := rfl
    rw [h0, ih]
    cases hper : lastVal k rest with
    | some w => simp [lastVal, hper]
    | none =>
      by_cases hk : k2 = k
      · subst hk
        simp [lastVal, hper, lookup_setKey_self]
      · simp [lastVal, hper, hk, lookup_setKey_ne _ _ _ _ (fun hh => hk hh.symm)]

theorem lastVal_append (k : String) (xs ys : List (String × JVal)) :
    lastVal k (xs ++ ys) =
      match lastVal k ys with
      | some w => some w
      | none => lastVal k xs := by
  induction xs with
  | nil => cases hys : lastVal k ys <;> simp [lastVal, hys]
  | cons kv rest ih =>
    obtain ⟨k2, v⟩ := kv
    have h0 : lastVal k (((k2, v) :: rest) ++ ys) =
        match lastVal k (rest ++ ys) with
        | some w => some w
        | none => if k2 = k then some v else none := rfl
    rw [h0, ih]
    cases hys : lastVal k ys <;> cases hr : lastVal k rest <;>
      simp [lastVal, hys, hr]

-- # Claims

/-- Claim C4: the priority mapping is the fixed bijection
none:0, low:1, medium:3, high:5 — decoding the encoding of each of the
four labels returns the label, and every integer outside 0,1,3,5
decodes to "none" without raising (the decoder is total). -/
theorem claim_C4 :
    (∀ lab : String, lab = "none" ∨ lab = "low" ∨ lab = "medium" ∨ lab = "high" →
      ∃ n : Int, priority_to_api lab = .ok n ∧ priority_from_api n = lab)
    ∧ priority_to_api "none" = .ok 0 ∧ priority_to_api "low" = .ok 1
    ∧ priority_to_api "medium" = .ok 3 ∧ priority_to_api "high" = .ok 5
    ∧ (∀ n : Int, n ≠ 0 → n ≠ 1 → n ≠ 3 → n ≠ 5 → priority_from_api n = "none") := by
  refine ⟨?_, rfl, rfl, rfl, rfl, ?_⟩
  · rintro lab (rfl | rfl | rfl | rfl)
    · exact ⟨0, rfl, rfl⟩
    · exact ⟨1, rfl, rfl⟩
    · exact ⟨3, rfl, rfl⟩
    · exact ⟨5, rfl, rfl⟩
  · intro n h0 h1 h3 h5
    simp [priority_from_api, h0, h1, h3, h5]

/-- Witness for C4 at the label "medium" and the unmapped integer 2. -/
theorem claim_C4_witness :
    (∃ n : Int, priority_to_api "medium" = .ok n ∧ priority_from_api n = "medium")
    ∧ priority_from_api 2 = "none" := by
  refine ⟨claim_C4.1 "medium" (Or.inr (Or.inr (Or.inl rfl))), ?_⟩
  exact claim_C4.2.2.2.2.2 2 (by decide) (by decide) (by decide) (by decide)

/-- Claim C5: encode_priority (priority_to_api) succeeds exactly on the
case/whitespace variants of the four labels and fails with the
InvalidPriority ValueError on every other string — it never silently
defaults. -/
theorem claim_C5 (s : String) :
    ((pyStrip (pyLower s) = "none" ∨ pyStrip (pyLower s) = "low" ∨
      pyStrip (pyLower s) = "medium" ∨ pyStrip (pyLower s) = "high") →
      ∃ n, priority_to_api s = .ok n)
    ∧ (pyStrip (pyLower s) ≠ "none" → pyStrip (pyLower s) ≠ "low" →
       pyStrip (pyLower s) ≠ "medium" → pyStrip (pyLower s) ≠ "high" →
       priority_to_api s = .error ("Invalid priority " ++ sglq ++ s ++ sglq ++
         ". Must be one of: none, low, medium, high")) := by
  constructor
  · rintro (h | h | h | h)
    · exact ⟨0, by simp [priority_to_api, h]⟩
    · exact ⟨1, by simp [priority_to_api, h]⟩
    · exact ⟨3, by simp [priority_to_api, h]⟩
    · exact ⟨5, by simp [priority_to_api, h]⟩
  · intro h0 h1 h2 h3
    simp [priority_to_api, h0, h1, h2, h3]

/-- Witness for C5 at the valid variant " HIGH " and the invalid label
"urgent". -/
theorem claim_C5_witness :
    (∃ n, priority_to_api " HIGH " = .ok n)
    ∧ priority_to_api "urgent" = .error ("Invalid priority " ++ sglq ++ "urgent" ++ sglq ++
        ". Must be one of: none, low, medium, high") := by
  refine ⟨(claim_C5 " HIGH ").1 ?_, (claim_C5 "urgent").2 ?_ ?_ ?_ ?_⟩ <;> decide

theorem parseDate_length {cs : List Char} {y mo dd : Nat} {rest : List Char}
    (h : parseDate cs = some (y, mo, dd, rest)) : cs.length = rest.length + 10 := by
  unfold parseDate at h
  split at h
  · split at h
    · dsimp only [] at h
      split at h
      · simp only [Option.some.injEq, Prod.mk.injEq] at h
        obtain ⟨-, -, -, h4⟩ := h
        subst h4
        simp [List.length_cons]
        try omega
      · cases h
    · cases h
  · cases h

theorem fromisoformat_len10 {s : String} {dt : PyDateTime}
    (h : fromisoformat s = some dt) (hl : s.length = 10) :
    dt.hour = 0 ∧ dt.minute = 0 ∧ dt.second = 0 ∧ dt.tz = none := by
  unfold fromisoformat parseIsoChars at h
  split at h
  · cases h
  next y mo dd rest hpd =>
    have hlen : s.data.length = rest.length + 10 := parseDate_length hpd
    have hsl : s.length = s.data.length := rfl
    have hr : rest = [] := List.eq_nil_of_length_eq_zero (by omega)
    subst hr
    simp only [] at h
    injection h with h2
    subst h2
    exact ⟨rfl, rfl, rfl, rfl⟩

theorem fmtOffsetNoColon_zero : fmtOffsetNoColon 0 = "+0000" := by decide

/-- Claim C6: date encoding — a bare 10-character date maps to midnight
UTC with all-day true; a date-time without offset is assumed UTC with
all-day false; a date-time with offset keeps its offset (rendered as a
4-digit no-colon suffix) with all-day false; unparseable input fails. -/
theorem claim_C6 :
    (∀ s dt, fromisoformat s = some dt → s.length = 10 →
      date_to_api s = some (fmtBase dt ++ "+0000", true) ∧
      dt.hour = 0 ∧ dt.minute = 0 ∧ dt.second = 0 ∧ dt.tz = none)
    ∧ (∀ s dt, fromisoformat s = some dt → dt.tz = none → s.length ≠ 10 →
      date_to_api s = some (fmtBase dt ++ "+0000", false))
    ∧ (∀ s dt off, fromisoformat s = some dt → dt.tz = some off →
      date_to_api s = some (fmtBase dt ++ fmtOffsetNoColon off, false))
    ∧ (∀ s, fromisoformat s = none → date_to_api s = none)
    ∧ date_to_api "2025-03-15" = some ("2025-03-15T00:00:00+0000", true)
    ∧ date_to_api "2025-03-15T14:00" = some ("2025-03-15T14:00:00+0000", false)
    ∧ date_to_api "2025-03-15T14:00:00+05:00" = some ("2025-03-15T14:00:00+0500", false)
    ∧ date_to_api "not-a-date" = none := by
  refine ⟨?_, ?_, ?_, ?_, rfl, rfl, rfl, rfl⟩
  · intro s dt h hl
    obtain ⟨hh, hm, hs, htz⟩ := fromisoformat_len10 h hl
    refine ⟨?_, hh, hm, hs, htz⟩
    unfold date_to_api
    rw [h]
    simp [hl, htz, strftime_z, fmtOffsetNoColon_zero, fmtBase]
  · intro s dt h htz hl
    unfold date_to_api
    rw [h]
    simp [hl, htz, strftime_z, fmtOffsetNoColon_zero, fmtBase]
  · intro s dt off h htz
    have hl : s.length ≠ 10 := by
      intro hl
      have := (fromisoformat_len10 h hl).2.2.2
      rw [htz] at this
      cases this
    unfold date_to_api
    rw [h]
    simp [hl, htz, strftime_z]
  · intro s h
    unfold date_to_api
    rw [h]

/-- Witness for C6: the no-offset date-time branch applied at a concrete
input, plus the bare-date branch. -/
theorem claim_C6_witness :
    date_to_api "2025-03-15T09:30" =
      some (fmtBase ⟨2025, 3, 15, 9, 30, 0, none⟩ ++ "+0000", false) ∧
    date_to_api "2024-02-29" =
      some (fmtBase ⟨2024, 2, 29, 0, 0, 0, none⟩ ++ "+0000", true) := by
  constructor
  · exact claim_C6.2.1 "2025-03-15T09:30" ⟨2025, 3, 15, 9, 30, 0, none⟩ rfl rfl (by decide)
  · exact (claim_C6.1 "2024-02-29" ⟨2024, 2, 29, 0, 0, 0, none⟩ rfl (by decide)).1

theorem except_map_ok {ε α β : Type} {x : Except ε α} {f : α → β} {y : β}
    (h : x.map f = .ok y) : ∃ z, x = .ok z ∧ y = f z := by
  cases x with
  | ok z =>
    refine ⟨z, rfl, ?_⟩
    simp [Except.map] at h
    exact h.symm
  | error e => simp [Except.map] at h

theorem lastVal_optStrOps_ne {k key : String} (hk : k ≠ key) (v : Option String) :
    lastVal k (optStrOps key v) = none := by
  cases v <;> simp [optStrOps, lastVal, Ne.symm hk]

theorem lastVal_optStrOps_some (key s : String) :
    lastVal key (optStrOps key (some s)) = some (.str s) := by
  simp [optStrOps, lastVal]

theorem lastVal_allDayOps_ne {k : String} (hk : k ≠ "isAllDay") (ob : Option Bool) :
    lastVal k (allDayOps ob) = none := by
  cases ob <;> simp [allDayOps, lastVal, Ne.symm hk]

theorem lastVal_allDayOps_some (b : Bool) :
    lastVal "isAllDay" (allDayOps (some b)) = some (.bool b) := by
  simp [allDayOps, lastVal]

theorem priorityOps_lastVal_ne {p : Option String} {l : List (String × JVal)}
    (h : priorityOps p = .ok l) {k : String} (hk : k ≠ "priority") :
    lastVal k l = none := by
  unfold priorityOps at h
  split at h
  · injection h with h2
    simp [← h2, lastVal]
  · split at h
    · injection h with h2
      simp [← h2, lastVal, Ne.symm hk]
    · cases h

theorem priorityOps_none_inv {l : List (String × JVal)}
    (h : priorityOps none = .ok l) : l = [] := by
  unfold priorityOps at h
  injection h with h2
  exact h2.symm

theorem priorityOps_some_inv {pv : String} {n : Int} {l : List (String × JVal)}
    (h : priorityOps (some pv) = .ok l) (he : priority_to_api pv = .ok n) :
    l = [("priority", .num n)] := by
  unfold priorityOps at h
  split at h
  next heq => cases heq
  next m heq =>
    injection heq with hpm
    subst hpm
    split at h
    next n2 heq2 =>
      rw [he] at heq2
      injection heq2 with h3
      injection h with h4
      rw [← h4, h3]
    next m2 heq2 =>
      rw [he] at heq2
      cases heq2

theorem dateOps_lastVal_ne {f an : String} {d : Option String} {ad ad2 : Option Bool}
    {l : List (String × JVal)}
    (h : dateOps f an d ad = .ok (l, ad2)) {k : String} (hk : k ≠ f) :
    lastVal k l = none := by
  unfold dateOps at h
  split at h
  · injection h with h2
    have h3 : l = [] := (congrArg Prod.fst h2).symm
    simp [h3, lastVal]
  · split at h
    · injection h with h2
      have h3 : l = [(f, JVal.str _)] := (congrArg Prod.fst h2).symm
      simp [h3, lastVal, Ne.symm hk]
    · cases h

theorem dateOps_none_inv {f an : String} {ad ad2 : Option Bool}
    {l : List (String × JVal)}
    (h : dateOps f an none ad = .ok (l, ad2)) : l = [] ∧ ad2 = ad := by
  unfold dateOps at h
  injection h with h2
  exact ⟨(congrArg Prod.fst h2).symm, (congrArg Prod.snd h2).symm⟩

theorem dateOps_some_inv {f an ds : String} {ad ad2 : Option Bool}
    {l : List (String × JVal)} {es : String} {b : Bool}
    (h : dateOps f an (some ds) ad = .ok (l, ad2)) (he : date_to_api ds = some (es, b)) :
    l = [(f, .str es)] ∧ ad2 = (if ad = none then some b else ad) := by
  unfold dateOps at h
  split at h
  next heq => cases heq
  next ds2 heq =>
    injection heq with hds
    subst hds
    split at h
    next es2 b2 heq2 =>
      rw [he] at heq2
      injection heq2 with h3
      have h4 : es = es2 := congrArg Prod.fst h3
      have h5 : b = b2 := congrArg Prod.snd h3
      subst h4
      subst h5
      injection h with h6
      exact ⟨(congrArg Prod.fst h6).symm, (congrArg Prod.snd h6).symm⟩
    next heq2 =>
      rw [he] at heq2
      cases heq2

theorem dateOps_allDay_some {f an : String} {d : Option String} {ad2 : Option Bool}
    {l : List (String × JVal)} {b : Bool}
    (h : dateOps f an d (some b) = .ok (l, ad2)) : ad2 = some b := by
  unfold dateOps at h
  split at h
  · injection h with h2
    exact (congrArg Prod.snd h2).symm
  · split at h
    · injection h with h2
      have := (congrArg Prod.snd h2).symm
      simpa using this
    · cases h

theorem itemsOpsUpdate_lastVal_ne {su : Option (List JVal)} {l : List (String × JVal)}
    (h : itemsOpsUpdate su = .ok l) {k : String} (hk : k ≠ "items") :
    lastVal k l = none := by
  unfold itemsOpsUpdate at h
  split at h
  · injection h with h2
    simp [← h2, lastVal]
  · split at h
    · injection h with h2
      simp [← h2, lastVal, Ne.symm hk]
    · cases h

theorem itemsOpsUpdate_none_inv {l : List (String × JVal)}
    (h : itemsOpsUpdate none = .ok l) : l = [] := by
  unfold itemsOpsUpdate at h
  injection h with h2
  exact h2.symm

theorem itemsOpsUpdate_some_inv {subs : List JVal} {lenc : List JVal}
    {l : List (String × JVal)}
    (h : itemsOpsUpdate (some subs) = .ok l)
    (he : subs.mapM subtask_to_api = .ok lenc) : l = [("items", .arr lenc)] := by
  unfold itemsOpsUpdate at h
  split at h
  next heq => cases heq
  next subs2 heq =>
    injection heq with hsu
    subst hsu
    split at h
    next l2 heq2 =>
      rw [he] at heq2
      injection heq2 with h3
      injection h with h4
      rw [← h4, h3]
    next e heq2 =>
      rw [he] at heq2
      cases heq2

theorem lastVal_optStrOps_none (k key : String) :
    lastVal k (optStrOps key none) = none := rfl

theorem updateOps_ok {a : UpdateTaskArgs} {ops : List (String × JVal)}
    (h : updateOps a = .ok ops) :
    ∃ pOps dOps sOps aD1 aD2 iOps,
      priorityOps a.priority = .ok pOps ∧
      dateOps "dueDate" "due_date" a.due_date a.is_all_day = .ok (dOps, aD1) ∧
      dateOps "startDate" "start_date" a.start_date aD1 = .ok (sOps, aD2) ∧
      itemsOpsUpdate a.subtasks = .ok iOps ∧
      ops = optStrOps "title" a.title ++ optStrOps "content" a.content ++
        pOps ++ dOps ++ sOps ++ allDayOps aD2 ++ iOps := by
  unfold updateOps at h
  obtain ⟨pOps, hp, h⟩ := except_bind_ok h
  obtain ⟨pd, hd, h⟩ := except_bind_ok h
  obtain ⟨dOps, aD1⟩ := pd
  simp only [] at h
  obtain ⟨ps, hs, h⟩ := except_bind_ok h
  obtain ⟨sOps, aD2⟩ := ps
  simp only [] at h
  obtain ⟨iOps, hi, h⟩ := except_bind_ok h
  simp only [pure, Except.pure, Except.ok.injEq] at h
  exact ⟨pOps, dOps, sOps, aD1, aD2, iOps, hp, hd, hs, hi, h.symm⟩

/-- Claim C1: the update merge overwrites exactly the caller-supplied
fields on the fetched provider task (subtasks wholesale), leaves every
other key at its fetched value, and the whole merged object is what is
sent to the update endpoint. -/
theorem claim_C1 (existing : JObj) (a : UpdateTaskArgs) (merged : JObj)
    (h : updateMerge existing a = .ok merged) :
    (∀ k, k ≠ "title" → k ≠ "content" → k ≠ "priority" → k ≠ "dueDate" →
        k ≠ "startDate" → k ≠ "isAllDay" → k ≠ "items" →
        lookup merged k = lookup existing k)
    ∧ (a.title = none → lookup merged "title" = lookup existing "title")
    ∧ (a.content = none → lookup merged "content" = lookup existing "content")
    ∧ (a.priority = none → lookup merged "priority" = lookup existing "priority")
    ∧ (a.due_date = none → lookup merged "dueDate" = lookup existing "dueDate")
    ∧ (a.start_date = none → lookup merged "startDate" = lookup existing "startDate")
    ∧ (a.is_all_day = none → a.due_date = none → a.start_date = none →
        lookup merged "isAllDay" = lookup existing "isAllDay")
    ∧ (a.subtasks = none → lookup merged "items" = lookup existing "items")
    ∧ (∀ t, a.title = some t → lookup merged "title" = some (.str t))
    ∧ (∀ c, a.content = some c → lookup merged "content" = some (.str c))
    ∧ (∀ p n, a.priority = some p → priority_to_api p = .ok n →
        lookup merged "priority" = some (.num n))
    ∧ (∀ ds es b, a.due_date = some ds → date_to_api ds = some (es, b) →
        lookup merged "dueDate" = some (.str es))
    ∧ (∀ ss es b, a.start_date = some ss → date_to_api ss = some (es, b) →
        lookup merged "startDate" = some (.str es))
    ∧ (∀ b, a.is_all_day = some b → lookup merged "isAllDay" = some (.bool b))
    ∧ (∀ subs lenc, a.subtasks = some subs → subs.mapM subtask_to_api = .ok lenc →
        lookup merged "items" = some (.arr lenc))
    ∧ (∀ u1 u2 : JObj → Except Nat JObj, u1 merged = u2 merged →
        ticktick_update_task a (.ok existing) u1 = ticktick_update_task a (.ok existing) u2) := by
  obtain ⟨ops, hops, hm⟩ := except_map_ok h
  obtain ⟨pOps, dOps, sOps, aD1, aD2, iOps, hp, hd, hs, hi, hEq⟩ := updateOps_ok hops
  subst hm
  subst hEq
  refine ⟨?_, ?_, ?_, ?_, ?_, ?_, ?_, ?_, ?_, ?_, ?_, ?_, ?_, ?_, ?_, ?_⟩
  · intro k h1 h2 h3 h4 h5 h6 h7
    rw [lookup_applyOps, lastVal_append, lastVal_append, lastVal_append, lastVal_append,
      lastVal_append, lastVal_append, lastVal_optStrOps_ne h1, lastVal_optStrOps_ne h2,
      priorityOps_lastVal_ne hp h3, dateOps_lastVal_ne hd h4, dateOps_lastVal_ne hs h5,
      lastVal_allDayOps_ne h6, itemsOpsUpdate_lastVal_ne hi h7]
  · intro ht
    rw [lookup_applyOps, lastVal_append, lastVal_append, lastVal_append, lastVal_append,
      lastVal_append, lastVal_append, ht, lastVal_optStrOps_none,
      lastVal_optStrOps_ne (by decide), priorityOps_lastVal_ne hp (by decide),
      dateOps_lastVal_ne hd (by decide), dateOps_lastVal_ne hs (by decide),
      lastVal_allDayOps_ne (by decide), itemsOpsUpdate_lastVal_ne hi (by decide)]
  · intro hc
    rw [lookup_applyOps, lastVal_append, lastVal_append, lastVal_append, lastVal_append,
      lastVal_append, lastVal_append, hc, lastVal_optStrOps_none,
      lastVal_optStrOps_ne (by decide), priorityOps_lastVal_ne hp (by decide),
      dateOps_lastVal_ne hd (by decide), dateOps_lastVal_ne hs (by decide),
      lastVal_allDayOps_ne (by decide), itemsOpsUpdate_lastVal_ne hi (by decide)]
  · intro hpr
    rw [hpr] at hp
    rw [lookup_applyOps, lastVal_append, lastVal_append, lastVal_append, lastVal_append,
      lastVal_append, lastVal_append, priorityOps_none_inv hp,
      lastVal_optStrOps_ne (by decide), lastVal_optStrOps_ne (by decide),
      dateOps_lastVal_ne hd (by decide), dateOps_lastVal_ne hs (by decide),
      lastVal_allDayOps_ne (by decide), itemsOpsUpdate_lastVal_ne hi (by decide)]
    rfl
  · intro hdd
    rw [hdd] at hd
    obtain ⟨hd1, -⟩ := dateOps_none_inv hd
    rw [lookup_applyOps, lastVal_append, lastVal_append, lastVal_append, lastVal_append,
      lastVal_append, lastVal_append, hd1,
      lastVal_optStrOps_ne (by decide), lastVal_optStrOps_ne (by decide),
      priorityOps_lastVal_ne hp (by decide), dateOps_lastVal_ne hs (by decide),
      lastVal_allDayOps_ne (by decide), itemsOpsUpdate_lastVal_ne hi (by decide)]
    rfl
  · intro hsd
    rw [hsd] at hs
    obtain ⟨hs1, -⟩ := dateOps_none_inv hs
    rw [lookup_applyOps, lastVal_append, lastVal_append, lastVal_append, lastVal_append,
      lastVal_append, lastVal_append, hs1,
      lastVal_optStrOps_ne (by decide), lastVal_optStrOps_ne (by decide),
      priorityOps_lastVal_ne hp (by decide), dateOps_lastVal_ne hd (by decide),
      lastVal_allDayOps_ne (by decide), itemsOpsUpdate_lastVal_ne hi (by decide)]
    rfl
  · intro hia hdd hsd
    rw [hdd] at hd
    obtain ⟨-, hd2⟩ := dateOps_none_inv hd
    rw [hsd] at hs
    obtain ⟨-, hs2⟩ := dateOps_none_inv hs
    have haD2 : aD2 = none := by rw [hs2, hd2, hia]
    rw [lookup_applyOps, lastVal_append, lastVal_append, lastVal_append, lastVal_append,
      lastVal_append, lastVal_append, haD2,
      lastVal_optStrOps_ne (by decide), lastVal_optStrOps_ne (by decide),
      priorityOps_lastVal_ne hp (by decide), dateOps_lastVal_ne hd (by decide),
      dateOps_lastVal_ne hs (by decide), itemsOpsUpdate_lastVal_ne hi (by decide)]
    rfl
  · intro hsu
    rw [hsu] at hi
    rw [lookup_applyOps, lastVal_append, lastVal_append, lastVal_append, lastVal_append,
      lastVal_append, lastVal_append, itemsOpsUpdate_none_inv hi,
      lastVal_optStrOps_ne (by decide), lastVal_optStrOps_ne (by decide),
      priorityOps_lastVal_ne hp (by decide), dateOps_lastVal_ne hd (by decide),
      dateOps_lastVal_ne hs (by decide), lastVal_allDayOps_ne (by decide)]
    rfl
  · intro t ht
    rw [ht]
    rw [lookup_applyOps, lastVal_append, lastVal_append, lastVal_append, lastVal_append,
      lastVal_append, lastVal_append,
      lastVal_optStrOps_ne (by decide) a.content, priorityOps_lastVal_ne hp (by decide),
      dateOps_lastVal_ne hd (by decide), dateOps_lastVal_ne hs (by decide),
      lastVal_allDayOps_ne (by decide), itemsOpsUpdate_lastVal_ne hi (by decide),
      lastVal_optStrOps_some]
  · intro c hc
    rw [hc]
    rw [lookup_applyOps, lastVal_append, lastVal_append, lastVal_append, lastVal_append,
      lastVal_append, lastVal_append,
      priorityOps_lastVal_ne hp (by decide),
      dateOps_lastVal_ne hd (by decide), dateOps_lastVal_ne hs (by decide),
      lastVal_allDayOps_ne (by decide), itemsOpsUpdate_lastVal_ne hi (by decide),
      lastVal_optStrOps_some]
  · intro p n hpr he
    rw [hpr] at hp
    rw [priorityOps_some_inv hp he] at *
    rw [lookup_applyOps, lastVal_append, lastVal_append, lastVal_append, lastVal_append,
      lastVal_append, lastVal_append,
      dateOps_lastVal_ne hd (by decide), dateOps_lastVal_ne hs (by decide),
      lastVal_allDayOps_ne (by decide), itemsOpsUpdate_lastVal_ne hi (by decide)]
    simp [lastVal]
  · intro ds es b hdd he
    rw [hdd] at hd
    obtain ⟨hd1, -⟩ := dateOps_some_inv hd he
    rw [hd1]
    rw [lookup_applyOps, lastVal_append, lastVal_append, lastVal_append, lastVal_append,
      lastVal_append, lastVal_append,
      dateOps_lastVal_ne hs (by decide),
      lastVal_allDayOps_ne (by decide), itemsOpsUpdate_lastVal_ne hi (by decide)]
    simp [lastVal]
  · intro ss es b hsd he
    rw [hsd] at hs
    obtain ⟨hs1, -⟩ := dateOps_some_inv hs he
    rw [hs1]
    rw [lookup_applyOps, lastVal_append, lastVal_append, lastVal_append, lastVal_append,
      lastVal_append, lastVal_append,
      lastVal_allDayOps_ne (by decide), itemsOpsUpdate_lastVal_ne hi (by decide)]
    simp [lastVal]
  · intro b hb
    rw [hb] at hd
    have h1 : aD1 = some b := dateOps_allDay_some hd
    rw [h1] at hs
    have h2 : aD2 = some b := dateOps_allDay_some hs
    rw [h2]
    rw [lookup_applyOps, lastVal_append, lastVal_append, lastVal_append, lastVal_append,
      lastVal_append, lastVal_append,
      itemsOpsUpdate_lastVal_ne hi (by decide), lastVal_allDayOps_some]
  · intro subs lenc hsu he
    rw [hsu] at hi
    rw [itemsOpsUpdate_some_inv hi he]
    rw [lookup_applyOps, lastVal_append, lastVal_append, lastVal_append, lastVal_append,
      lastVal_append, lastVal_append]
    simp [lastVal]
  · intro u1 u2 hu
    simp only [ticktick_update_task, h]
    rw [hu]

/-- Witness for C1: updating only the title of a fetched task with a
priority field preserves the priority and sets the title. -/
theorem claim_C1_witness :
    lookup (applyOps [("id", JVal.str "t"), ("priority", JVal.num 5)]
      [("title", JVal.str "new")]) "priority" = some (JVal.num 5) ∧
    lookup (applyOps [("id", JVal.str "t"), ("priority", JVal.num 5)]
      [("title", JVal.str "new")]) "title" = some (JVal.str "new") := by
  have hc := claim_C1 [("id", JVal.str "t"), ("priority", JVal.num 5)]
    ⟨some "new", none, none, none, none, none, none⟩
    (applyOps [("id", JVal.str "t"), ("priority", JVal.num 5)] [("title", JVal.str "new")])
    rfl
  constructor
  · rw [hc.2.2.2.1 rfl]
    rfl
  · exact hc.2.2.2.2.2.2.2.2.1 "new" rfl


theorem createTaskPayload_ok {a : CreateTaskArgs} {inbox : Option String} {payload : JObj}
    (h : createTaskPayload a inbox = .ok payload) :
    ∃ n dOps aD1 sOps aD2 iOps,
      priority_to_api a.priority = .ok n ∧
      dateOps "dueDate" "due_date" a.due_date a.is_all_day = .ok (dOps, aD1) ∧
      dateOps "startDate" "start_date" a.start_date aD1 = .ok (sOps, aD2) ∧
      itemsOpsCreate a.subtasks = .ok iOps ∧
      payload = applyOps
        [("title", .str a.title),
         ("projectId", .str ((if optTruthy a.project_id then a.project_id
            else inbox).getD "")),
         ("priority", .num n)]
        (optStrOps "content" a.content ++ dOps ++ sOps ++ allDayOps aD2 ++ iOps) := by
  unfold createTaskPayload at h
  simp only [] at h
  by_cases hres : optTruthy (if optTruthy a.project_id then a.project_id else inbox) = false
  · rw [if_pos hres] at h
    cases h
  · rw [if_neg hres] at h
    obtain ⟨n, hn, h⟩ := except_bind_ok h
    have hpn : priority_to_api a.priority = .ok n := by
      unfold priorityEnc at hn
      split at hn
      next n2 heq =>
        injection hn with h2
        rw [heq, h2]
      next m heq =>
        cases hn
    obtain ⟨pd, hd, h⟩ := except_bind_ok h
    obtain ⟨dOps, aD1⟩ := pd
    simp only [] at h
    obtain ⟨ps, hs, h⟩ := except_bind_ok h
    obtain ⟨sOps, aD2⟩ := ps
    simp only [] at h
    obtain ⟨iOps, hi, h⟩ := except_bind_ok h
    simp only [pure, Except.pure, Except.ok.injEq] at h
    exact ⟨n, dOps, aD1, sOps, aD2, iOps, hpn, hd, hs, hi, h.symm⟩

theorem itemsOpsCreate_lastVal_ne {su : Option (List JVal)} {l : List (String × JVal)}
    (h : itemsOpsCreate su = .ok l) {k : String} (hk : k ≠ "items") :
    lastVal k l = none := by
  unfold itemsOpsCreate at h
  split at h
  · injection h with h2
    simp [← h2, lastVal]
  · split at h
    · injection h with h2
      simp [← h2, lastVal]
    · split at h
      · injection h with h2
        simp [← h2, lastVal, Ne.symm hk]
      · cases h

/-- Claim C7: when both dates are supplied and `is_all_day` is not, the
`isAllDay` flag sent by create/update equals the value inferred from the
due date (due comes before start in the fixed order); the start-date
inference is used only when no due date was supplied. -/
theorem claim_C7 :
    (∀ (a : CreateTaskArgs) (inbox : Option String) (payload : JObj) (ds ss eds : String)
        (bd : Bool), a.due_date = some ds → a.start_date = some ss →
      a.is_all_day = none → date_to_api ds = some (eds, bd) →
      createTaskPayload a inbox = .ok payload →
      lookup payload "isAllDay" = some (.bool bd))
    ∧ (∀ (a : CreateTaskArgs) (inbox : Option String) (payload : JObj) (ss ess : String)
        (bs : Bool), a.due_date = none → a.start_date = some ss →
      a.is_all_day = none → date_to_api ss = some (ess, bs) →
      createTaskPayload a inbox = .ok payload →
      lookup payload "isAllDay" = some (.bool bs))
    ∧ (∀ (existing : JObj) (a : UpdateTaskArgs) (merged : JObj) (ds ss eds : String)
        (bd : Bool), a.due_date = some ds → a.start_date = some ss →
      a.is_all_day = none → date_to_api ds = some (eds, bd) →
      updateMerge existing a = .ok merged →
      lookup merged "isAllDay" = some (.bool bd))
    ∧ (∀ (existing : JObj) (a : UpdateTaskArgs) (merged : JObj) (ss ess : String)
        (bs : Bool), a.due_date = none → a.start_date = some ss →
      a.is_all_day = none → date_to_api ss = some (ess, bs) →
      updateMerge existing a = .ok merged →
      lookup merged "isAllDay" = some (.bool bs)) := by
  refine ⟨?_, ?_, ?_, ?_⟩
  · intro a inbox payload ds ss eds bd hdd hsd hia he h
    obtain ⟨n, dOps, aD1, sOps, aD2, iOps, -, hd, hs, hi, hEq⟩ := createTaskPayload_ok h
    rw [hdd, hia] at hd
    obtain ⟨-, hd2⟩ := dateOps_some_inv hd he
    rw [if_pos rfl] at hd2
    rw [hd2] at hs
    have h2 : aD2 = some bd := dateOps_allDay_some hs
    rw [hEq, h2, lookup_applyOps, lastVal_append, lastVal_append, lastVal_append,
      lastVal_append, itemsOpsCreate_lastVal_ne hi (by decide), lastVal_allDayOps_some]
  · intro a inbox payload ss ess bs hdd hsd hia he h
    obtain ⟨n, dOps, aD1, sOps, aD2, iOps, -, hd, hs, hi, hEq⟩ := createTaskPayload_ok h
    rw [hdd, hia] at hd
    obtain ⟨-, hd2⟩ := dateOps_none_inv hd
    rw [hd2, hsd] at hs
    obtain ⟨-, hs2⟩ := dateOps_some_inv hs he
    rw [if_pos rfl] at hs2
    rw [hEq, hs2, lookup_applyOps, lastVal_append, lastVal_append, lastVal_append,
      lastVal_append, itemsOpsCreate_lastVal_ne hi (by decide), lastVal_allDayOps_some]
  · intro existing a merged ds ss eds bd hdd hsd hia he h
    obtain ⟨ops, hops, hm⟩ := except_map_ok h
    obtain ⟨pOps, dOps, sOps, aD1, aD2, iOps, hp, hd, hs, hi, hEq⟩ := updateOps_ok hops
    rw [hdd, hia] at hd
    obtain ⟨-, hd2⟩ := dateOps_some_inv hd he
    rw [if_pos rfl] at hd2
    rw [hd2] at hs
    have h2 : aD2 = some bd := dateOps_allDay_some hs
    rw [hm, hEq, h2, lookup_applyOps, lastVal_append, lastVal_append, lastVal_append,
      lastVal_append, lastVal_append, lastVal_append,
      itemsOpsUpdate_lastVal_ne hi (by decide), lastVal_allDayOps_some]
  · intro existing a merged ss ess bs hdd hsd hia he h
    obtain ⟨ops, hops, hm⟩ := except_map_ok h
    obtain ⟨pOps, dOps, sOps, aD1, aD2, iOps, hp, hd, hs, hi, hEq⟩ := updateOps_ok hops
    rw [hdd, hia] at hd
    obtain ⟨-, hd2⟩ := dateOps_none_inv hd
    rw [hd2, hsd] at hs
    obtain ⟨-, hs2⟩ := dateOps_some_inv hs he
    rw [if_pos rfl] at hs2
    rw [hm, hEq, hs2, lookup_applyOps, lastVal_append, lastVal_append, lastVal_append,
      lastVal_append, lastVal_append, lastVal_append,
      itemsOpsUpdate_lastVal_ne hi (by decide), lastVal_allDayOps_some]

/-- Witness for C7: create with a bare due date (all-day) and a timed
start date and no explicit `is_all_day` sends `isAllDay = true`, the
value inferred from the due date. -/
theorem claim_C7_witness :
    lookup (applyOps
      [("title", JVal.str "T"), ("projectId", JVal.str "p1"), ("priority", JVal.num 0)]
      [("dueDate", JVal.str "2025-03-15T00:00:00+0000"),
       ("startDate", JVal.str "2025-03-15T14:00:00+0000"),
       ("isAllDay", JVal.bool true)]) "isAllDay" = some (JVal.bool true) :=
  claim_C7.1 ⟨"T", some "p1", none, "none", some "2025-03-15",
    some "2025-03-15T14:00", none, none⟩ none
    (applyOps
      [("title", JVal.str "T"), ("projectId", JVal.str "p1"), ("priority", JVal.num 0)]
      [("dueDate", JVal.str "2025-03-15T00:00:00+0000"),
       ("startDate", JVal.str "2025-03-15T14:00:00+0000"),
       ("isAllDay", JVal.bool true)])
    "2025-03-15" "2025-03-15T14:00" "2025-03-15T00:00:00+0000" true
    rfl rfl rfl rfl rfl

/-- Claim C8: list_projects returns the decoded provider projects, and
prepends exactly one synthetic Inbox entry (id = configured inbox id,
name "Inbox", no color, no viewMode, not closed) at the head iff a
non-empty inbox id is configured. -/
theorem claim_C8 (ps : List JObj) (inbox : Option String) (decoded : List JObj)
    (h : ps.mapM normalize_project = .ok decoded) :
    (∀ s, inbox = some s → s ≠ "" →
      ticktick_list_projects (.ok ps) inbox =
        .ok (.arr ((inboxEntry s :: decoded).map .obj)) ∧
      inboxEntry s = [("id", .str s), ("name", .str "Inbox"), ("color", .null),
        ("viewMode", .null), ("isClosed", .bool false)])
    ∧ ((inbox = none ∨ inbox = some "") →
      ticktick_list_projects (.ok ps) inbox = .ok (.arr (decoded.map .obj))) := by
  constructor
  · intro s hin hs
    subst hin
    refine ⟨?_, rfl⟩
    simp only [ticktick_list_projects]
    rw [h]
    simp [Bind.bind, Except.bind, optTruthy, hs, pure, Except.pure]
  · rintro (rfl | rfl) <;>
    · simp only [ticktick_list_projects]
      rw [h]
      simp [Bind.bind, Except.bind, optTruthy, pure, Except.pure]

/-- Witness for C8: one provider project, with and without a configured
inbox id. -/
theorem claim_C8_witness :
    (ticktick_list_projects (.ok [[("id", JVal.str "p1")]]) (some "inbox") =
      .ok (.arr ((inboxEntry "inbox" ::
        [[("id", JVal.str "p1"), ("name", JVal.str ""), ("color", JVal.null),
          ("viewMode", JVal.null), ("isClosed", JVal.bool false)]]).map JVal.obj)))
    ∧ (ticktick_list_projects (.ok [[("id", JVal.str "p1")]]) none =
      .ok (.arr ([[("id", JVal.str "p1"), ("name", JVal.str ""), ("color", JVal.null),
          ("viewMode", JVal.null), ("isClosed", JVal.bool false)]].map JVal.obj))) := by
  constructor
  · exact ((claim_C8 [[("id", JVal.str "p1")]] (some "inbox")
      [[("id", JVal.str "p1"), ("name", JVal.str ""), ("color", JVal.null),
        ("viewMode", JVal.null), ("isClosed", JVal.bool false)]] rfl).1 "inbox" rfl
      (by decide)).1
  · exact (claim_C8 [[("id", JVal.str "p1")]] none
      [[("id", JVal.str "p1"), ("name", JVal.str ""), ("color", JVal.null),
        ("viewMode", JVal.null), ("isClosed", JVal.bool false)]] rfl).2 (Or.inl rfl)

/-- Claim C3: in the search fetch-and-filter loop, a project whose fetch
fails with an HTTP error is skipped silently — the loop result over a
scope containing the failing project equals the result over the scope
with that project removed, so the other projects' tasks are still
returned. -/
theorem claim_C3 (fetch : JVal → Except Nat JObj) (q tp : Option String)
    (dtB dtA : Option PyDateTime) (pre post : List JVal) (bad : JVal) (code : Nat)
    (h : fetch bad = .error code) :
    searchLoop fetch q tp dtB dtA (pre ++ bad :: post) =
      searchLoop fetch q tp dtB dtA (pre ++ post) := by
  induction pre with
  | nil => simp [searchLoop, h]
  | cons p rest ih =>
    cases hf : fetch p with
    | error e => simp only [List.cons_append, searchLoop, hf, List.append_eq, ih]
    | ok data => simp only [List.cons_append, searchLoop, hf, List.append_eq, ih]

/-- Witness for C3: a two-project scope where the second fetch fails
with a 403; the result equals the one-project search. -/
theorem claim_C3_witness :
    searchLoop
      (fun v => match v with
        | JVal.str s => if s = "bad" then .error 403 else .ok [("tasks", JVal.arr [])]
        | _ => .ok [("tasks", JVal.arr [])])
      none none none none [JVal.str "good", JVal.str "bad"] =
    searchLoop
      (fun v => match v with
        | JVal.str s => if s = "bad" then .error 403 else .ok [("tasks", JVal.arr [])]
        | _ => .ok [("tasks", JVal.arr [])])
      none none none none [JVal.str "good"] :=
  claim_C3 _ none none none none [JVal.str "good"] [] (JVal.str "bad") 403 rfl

/-- Counterexample to C10 as stated: a dict that does contain "id" on
which `normalize_task` still raises — the date decode of a malformed
`dueDate` string raises ValueError, so "id" is not the only field the
function is partial in. -/
theorem claim_C10_counterexample :
    lookup [("id", JVal.str "t1"), ("dueDate", JVal.str "soon")] "id" =
      some (JVal.str "t1") ∧
    normalize_task [("id", JVal.str "t1"), ("dueDate", JVal.str "soon")] =
      .error (.valueError ("Invalid isoformat string: " ++ sglq ++ "soon" ++ sglq)) :=
  ⟨rfl, rfl⟩

/-- Claim C10 (amended): both normalizers raise KeyError exactly when
"id" is missing; `normalize_project` succeeds on every dict containing
"id", defaulting all other fields; `normalize_task` succeeds on a dict
containing "id" provided the other fields decode (hashable priority,
parseable-or-absent dates, decodable items) — and on the minimal input
containing only "id" it yields all documented defaults. -/
theorem claim_C10 :
    (∀ d : JObj, lookup d "id" = none → normalize_task d = .error .keyError)
    ∧ (∀ d : JObj, lookup d "id" = none → normalize_project d = .error .keyError)
    ∧ (∀ d : JObj, lookup d "id" ≠ none → ∃ r, normalize_project d = .ok r ∧
        lookup r "name" = some (getD d "name" (.str "")) ∧
        lookup r "color" = some (getD d "color" .null) ∧
        lookup r "viewMode" = some (getD d "viewMode" .null) ∧
        lookup r "isClosed" = some (getD d "closed" (.bool false)))
    ∧ (∀ d : JObj, lookup d "id" ≠ none →
        (∃ pr, priority_from_api_j (getD d "priority" (.num 0)) = .ok pr) →
        (∃ dv, date_from_api (getD d "dueDate" .null) = .ok dv) →
        (∃ sv, date_from_api (getD d "startDate" .null) = .ok sv) →
        (∃ iv, itemsDecode (getD d "items" .null) = .ok iv) →
        ∃ r, normalize_task d = .ok r)
    ∧ normalize_task [("id", JVal.str "t1")] = .ok
        [("id", .str "t1"), ("projectId", .str ""), ("title", .str ""),
         ("content", .str ""), ("priority", .str "none"),
         ("isCompleted", .bool false), ("isAllDay", .bool false),
         ("dueDate", .null), ("startDate", .null), ("subtasks", .arr [])] := by
  refine ⟨?_, ?_, ?_, ?_, rfl⟩
  · intro d hl
    simp [normalize_task, dictGetItem, hl, Bind.bind, Except.bind]
  · intro d hl
    simp [normalize_project, hl]
  · intro d hl
    obtain ⟨v, hv⟩ := Option.ne_none_iff_exists'.mp hl
    refine ⟨[("id", v), ("name", getD d "name" (.str "")), ("color", getD d "color" .null),
      ("viewMode", getD d "viewMode" .null), ("isClosed", getD d "closed" (.bool false))],
      ?_, ?_, ?_, ?_, ?_⟩ <;> simp [normalize_project, hv, lookup]
  · intro d hl hpr hdv hsv hiv
    obtain ⟨v, hv⟩ := Option.ne_none_iff_exists'.mp hl
    obtain ⟨pr, hpr⟩ := hpr
    obtain ⟨dvv, hdv⟩ := hdv
    obtain ⟨sv, hsv⟩ := hsv
    obtain ⟨iv, hiv⟩ := hiv
    refine ⟨[("id", v), ("projectId", getD d "projectId" (.str "")),
      ("title", getD d "title" (.str "")), ("content", getD d "content" (.str "")),
      ("priority", .str pr),
      ("isCompleted", .bool (pyNeZero (getD d "status" (.num 0)))),
      ("isAllDay", getD d "isAllDay" (.bool false)),
      ("dueDate", dvv), ("startDate", sv), ("subtasks", iv)], ?_⟩
    simp [normalize_task, dictGetItem, hv, hpr, hdv, hsv, hiv,
      Bind.bind, Except.bind, pure, Except.pure]

/-- Witness for C10 (amended) at concrete inputs: a dict without "id"
raises KeyError; one with "id" and a status succeeds. -/
theorem claim_C10_witness :
    normalize_task [("title", JVal.str "x")] = .error .keyError ∧
    normalize_project [] = .error .keyError ∧
    (∃ r, normalize_task [("id", JVal.str "t1"), ("status", JVal.num 2)] = .ok r) := by
  refine ⟨claim_C10.1 _ rfl, claim_C10.2.1 _ rfl, ?_⟩
  exact claim_C10.2.2.2.1 [("id", JVal.str "t1"), ("status", JVal.num 2)]
    (by simp [lookup]) ⟨"none", rfl⟩ ⟨.null, rfl⟩ ⟨.null, rfl⟩ ⟨.arr [], rfl⟩

/-- Counterexample to C9 as stated: a normalization error need not be
converted to an error payload — decoding a 200 response whose `dueDate`
is malformed raises the ValueError past the operation boundary
(`ticktick_get_task` catches only `httpx.HTTPStatusError`). -/
theorem claim_C9_counterexample :
    ticktick_get_task (.ok [("id", JVal.str "t"), ("dueDate", JVal.str "soon")]) =
      .error (.valueError ("Invalid isoformat string: " ++ sglq ++ "soon" ++ sglq)) :=
  rfl

/-- Claim C9 (amended): every provider call returning a non-2xx status
makes the invoking operation return the error payload rather than raise
— with the sole exception of the per-project detail fetches inside
search, where the failure is swallowed entirely and the loop continues
with the remaining projects — and the encode-side normalization errors
(invalid priority label, invalid date argument, invalid search filters)
are likewise converted to error payloads; only decode-side
normalization failures on malformed provider data raise past the
boundary. -/
theorem claim_C9 :
    (∀ (code : Nat) (inbox : Option String), ticktick_list_projects (.error code) inbox =
      .ok (errVal ("Failed to list projects: " ++ toString code)))
    ∧ (∀ code : Nat, ticktick_get_project_tasks (.error code) =
      .ok (errVal ("Failed to get project tasks: " ++ toString code)))
    ∧ (∀ code : Nat, ticktick_create_project (.error code) =
      .ok (errVal ("Failed to create project: " ++ toString code)))
    ∧ (∀ (pid : String) (code : Nat), ticktick_delete_project pid (.error code) =
      .ok (errVal ("Failed to delete project: " ++ toString code)))
    ∧ (∀ code : Nat, ticktick_get_task (.error code) =
      .ok (errVal ("Failed to get task: " ++ toString code)))
    ∧ (∀ (a : CreateTaskArgs) (inbox : Option String) (code : Nat) (payload : JObj),
      createTaskPayload a inbox = .ok payload →
      ticktick_create_task a inbox (.error code) =
        .ok (errVal ("Failed to create task: " ++ toString code)))
    ∧ (∀ (a : UpdateTaskArgs) (code : Nat) (u : JObj → Except Nat JObj),
      ticktick_update_task a (.error code) u =
        .ok (errVal ("Failed to fetch task for update: " ++ toString code)))
    ∧ (∀ (a : UpdateTaskArgs) (existing merged : JObj) (code : Nat),
      updateMerge existing a = .ok merged →
      ticktick_update_task a (.ok existing) (fun _ => .error code) =
        .ok (errVal ("Failed to update task: " ++ toString code)))
    ∧ (∀ (tid : String) (code : Nat), ticktick_complete_task tid (.error code) =
      .ok (errVal ("Failed to complete task: " ++ toString code)))
    ∧ (∀ (a : SearchArgs) (inbox : Option String) (code : Nat)
        (fetch : JVal → Except Nat JObj), optTruthy a.project_id = false →
      ticktick_search_tasks a (.error code) inbox fetch =
        .ok (errVal ("Failed to list projects: " ++ toString code)))
    ∧ (∀ (a : CreateTaskArgs) (inbox : Option String) (resp : Except Nat JObj)
        (m : String), createTaskPayload a inbox = .error (.handled m) →
      ticktick_create_task a inbox resp = .ok (errVal m))
    ∧ (∀ (a : UpdateTaskArgs) (existing : JObj) (u : JObj → Except Nat JObj)
        (m : String), updateMerge existing a = .error (.handled m) →
      ticktick_update_task a (.ok existing) u = .ok (errVal m))
    ∧ (∀ (a : SearchArgs) (listResp : Except Nat (List JObj)) (inbox : Option String)
        (fetch : JVal → Except Nat JObj) (pids : List JVal) (m : String),
      searchScope a listResp inbox = .ok pids →
      parseBoundDate "due_before" a.due_before = .error (.handled m) →
      ticktick_search_tasks a listResp inbox fetch = .ok (errVal m))
    ∧ (∀ (a : SearchArgs) (listResp : Except Nat (List JObj)) (inbox : Option String)
        (fetch : JVal → Except Nat JObj) (pids : List JVal) (dtB : Option PyDateTime)
        (m : String),
      searchScope a listResp inbox = .ok pids →
      parseBoundDate "due_before" a.due_before = .ok dtB →
      parseBoundDate "due_after" a.due_after = .error (.handled m) →
      ticktick_search_tasks a listResp inbox fetch = .ok (errVal m))
    ∧ (∀ (a : SearchArgs) (listResp : Except Nat (List JObj)) (inbox : Option String)
        (fetch : JVal → Except Nat JObj) (pids : List JVal)
        (dtB dtA : Option PyDateTime) (m : String),
      searchScope a listResp inbox = .ok pids →
      parseBoundDate "due_before" a.due_before = .ok dtB →
      parseBoundDate "due_after" a.due_after = .ok dtA →
      parsePriorityFilter a.priority = .error (.handled m) →
      ticktick_search_tasks a listResp inbox fetch = .ok (errVal m))
    ∧ (∀ (fetch : JVal → Except Nat JObj) (q tp : Option String)
        (dtB dtA : Option PyDateTime) (pre post : List JVal) (bad : JVal) (code : Nat),
      fetch bad = .error code →
      searchLoop fetch q tp dtB dtA (pre ++ bad :: post) =
        searchLoop fetch q tp dtB dtA (pre ++ post)) := by
  refine ⟨fun code inbox => rfl, fun code => rfl, fun code => rfl, fun pid code => rfl,
    fun code => rfl, ?_, fun a code u => rfl, ?_, fun tid code => rfl, ?_, ?_, ?_, ?_, ?_, ?_,
    ?_⟩
  · intro a inbox code payload h
    simp only [ticktick_create_task, h]
  · intro a existing merged code h
    simp only [ticktick_update_task, h]
  · intro a inbox code fetch h
    simp only [ticktick_search_tasks, searchScope, h, Bool.false_eq_true, if_neg]
    simp
  · intro a inbox resp m h
    simp only [ticktick_create_task, h]
  · intro a existing u m h
    simp only [ticktick_update_task, h]
  · intro a listResp inbox fetch pids m h1 h2
    simp only [ticktick_search_tasks, h1, h2]
  · intro a listResp inbox fetch pids dtB m h1 h2 h3
    simp only [ticktick_search_tasks, h1, h2, h3]
  · intro a listResp inbox fetch pids dtB dtA m h1 h2 h3 h4
    simp only [ticktick_search_tasks, h1, h2, h3, h4]
  · intro fetch q tp dtB dtA pre post bad code h
    induction pre with
    | nil => simp [searchLoop, h]
    | cons p rest ih =>
      cases hf : fetch p with
      | error e => simp only [List.cons_append, searchLoop, hf, List.append_eq, ih]
      | ok data => simp only [List.cons_append, searchLoop, hf, List.append_eq, ih]

/-- Witness for C9 at concrete failures: a 500 on list-projects, a 404
on the create call, a 502 on the update call, an unparseable due_before
filter, and a swallowed 500 on one project's detail fetch inside the
search loop. -/
theorem claim_C9_witness :
    ticktick_list_projects (.error 500) none =
      .ok (errVal ("Failed to list projects: " ++ toString (500 : Nat))) ∧
    ticktick_create_task ⟨"T", some "p", none, "none", none, none, none, none⟩ none
        (.error 404) =
      .ok (errVal ("Failed to create task: " ++ toString (404 : Nat))) ∧
    ticktick_update_task ⟨none, none, none, none, none, none, none⟩ (.ok [])
        (fun _ => .error 502) =
      .ok (errVal ("Failed to update task: " ++ toString (502 : Nat))) ∧
    ticktick_search_tasks ⟨none, some "p", none, some "nope", none⟩ (.ok []) none
        (fun _ => .ok []) =
      .ok (errVal ("Invalid due_before format: " ++ pyRepr "nope")) ∧
    searchLoop
      (fun v => match v with
        | JVal.str s => if s = "dead" then .error 500 else .ok [("tasks", JVal.arr [])]
        | _ => .ok [("tasks", JVal.arr [])])
      none none none none [JVal.str "a", JVal.str "dead", JVal.str "b"] =
    searchLoop
      (fun v => match v with
        | JVal.str s => if s = "dead" then .error 500 else .ok [("tasks", JVal.arr [])]
        | _ => .ok [("tasks", JVal.arr [])])
      none none none none [JVal.str "a", JVal.str "b"] := by
  refine ⟨claim_C9.1 500 none, ?_, ?_, ?_, ?_⟩
  · exact claim_C9.2.2.2.2.2.1 ⟨"T", some "p", none, "none", none, none, none, none⟩
      none 404 [("title", JVal.str "T"), ("projectId", JVal.str "p"),
        ("priority", JVal.num 0)] rfl
  · exact claim_C9.2.2.2.2.2.2.2.1 ⟨none, none, none, none, none, none, none⟩ [] [] 502 rfl
  · exact claim_C9.2.2.2.2.2.2.2.2.2.2.2.2.1 ⟨none, some "p", none, some "nope", none⟩
      (.ok []) none (fun _ => .ok []) [JVal.str "p"]
      ("Invalid due_before format: " ++ pyRepr "nope") rfl rfl
  · exact claim_C9.2.2.2.2.2.2.2.2.2.2.2.2.2.2.2
      (fun v => match v with
        | JVal.str s => if s = "dead" then .error 500 else .ok [("tasks", JVal.arr [])]
        | _ => .ok [("tasks", JVal.arr [])])
      none none none none [JVal.str "a"] [JVal.str "b"] (JVal.str "dead") 500 rfl

/-- Claim C2: the search filters combine conjunctively (the combined
filter passes iff each filter alone passes), and the date bounds are
strict — with `dt_before` set, a task whose due instant compares ≥ the
bound is excluded; with `dt_after` set, one comparing ≤ is excluded; and
a task with no (falsy) due date is excluded whenever either bound is
active.  The query/priority steps are assumed not to raise (they cannot
on well-typed normalized tasks). -/
theorem claim_C2 (q tp : Option String) (dtB dtA : Option PyDateTime) (t : JObj)
    (hq : ∃ b1, queryFilter q t = .ok b1)
    (hp : ∃ b2, priorityFilter tp t = .ok b2) :
    (taskPasses q tp dtB dtA t = .ok true ↔
      (taskPasses q none none none t = .ok true ∧
       taskPasses none tp none none t = .ok true ∧
       taskPasses none none dtB dtA t = .ok true))
    ∧ (∀ bdt ds dd c, dtB = some bdt → getD t "dueDate" .null = .str ds →
        fromisoformat ds = some dd → cmpDT dd bdt = .ok c → c ≠ Ordering.lt →
        taskPasses q tp dtB dtA t = .ok false)
    ∧ (∀ adt ds dd c, dtA = some adt → getD t "dueDate" .null = .str ds →
        fromisoformat ds = some dd →
        (∀ bdt, dtB = some bdt → ∃ c1, cmpDT dd bdt = .ok c1) →
        cmpDT dd adt = .ok c → c ≠ Ordering.gt →
        taskPasses q tp dtB dtA t = .ok false)
    ∧ ((dtB ≠ none ∨ dtA ≠ none) → pyTruthy (getD t "dueDate" .null) = false →
        taskPasses q tp dtB dtA t = .ok false) := by
  obtain ⟨b1, hq⟩ := hq
  obtain ⟨b2, hp⟩ := hp
  have hqn : queryFilter none t = .ok true := by simp [queryFilter, optTruthy]
  have hpn : priorityFilter none t = .ok true := by simp [priorityFilter, optTruthy]
  have hdn : dateFilter none none t = .ok true := by simp [dateFilter]
  refine ⟨?_, ?_, ?_, ?_⟩
  · cases b1 with
    | false => simp [taskPasses, hq, hqn, hpn, hdn]
    | true =>
      cases b2 with
      | false => simp [taskPasses, hq, hp, hqn, hpn, hdn]
      | true => simp [taskPasses, hq, hp, hqn, hpn, hdn]
  · intro bdt ds dd c hB hdue hparse hcmp hne
    cases b1 with
    | false => simp [taskPasses, hq]
    | true =>
      cases b2 with
      | false => simp [taskPasses, hq, hp]
      | true =>
        have hds : ds ≠ "" := by
          intro hds0
          subst hds0
          simp [fromisoformat, parseIsoChars, parseDate] at hparse
        simp [taskPasses, hq, hp, dateFilter, hB, hdue, hparse, hcmp, hne, pyTruthy, hds]
  · intro adt ds dd c hA hdue hparse hbb hcmp hne
    cases b1 with
    | false => simp [taskPasses, hq]
    | true =>
      cases b2 with
      | false => simp [taskPasses, hq, hp]
      | true =>
        have hds : ds ≠ "" := by
          intro hds0
          subst hds0
          simp [fromisoformat, parseIsoChars, parseDate] at hparse
        cases hBv : dtB with
        | none =>
          simp [taskPasses, hq, hp, dateFilter, hA, hdue, hparse, pyTruthy, hds,
            afterCheck, hcmp, hne]
        | some bdt =>
          obtain ⟨c1, hc1⟩ := hbb bdt hBv
          by_cases hlt : c1 = Ordering.lt
          · simp [taskPasses, hq, hp, dateFilter, hA, hdue, hparse, pyTruthy, hds,
              afterCheck, hcmp, hne, hc1, hlt]
          · simp [taskPasses, hq, hp, dateFilter, hA, hdue, hparse, pyTruthy, hds,
              afterCheck, hc1, hlt]
  · intro hact hfalsy
    have hsome : dtB.isSome ∨ dtA.isSome := by
      rcases hact with h | h
      · exact Or.inl (Option.isSome_iff_ne_none.mpr h)
      · exact Or.inr (Option.isSome_iff_ne_none.mpr h)
    cases b1 with
    | false => simp [taskPasses, hq]
    | true =>
      cases b2 with
      | false => simp [taskPasses, hq, hp]
      | true => simp [taskPasses, hq, hp, dateFilter, hsome, hfalsy]

/-- Witness for C2: with `due_before = 2025-01-01` (UTC) a task due
2025-03-15 is excluded by the strict ≥ test. -/
theorem claim_C2_witness :
    taskPasses none none (some ⟨2025, 1, 1, 0, 0, 0, some 0⟩) none
      [("title", JVal.str "Report"), ("priority", JVal.str "none"),
       ("dueDate", JVal.str "2025-03-15T00:00:00+00:00")] = .ok false :=
  (claim_C2 none none (some ⟨2025, 1, 1, 0, 0, 0, some 0⟩) none
    [("title", JVal.str "Report"), ("priority", JVal.str "none"),
     ("dueDate", JVal.str "2025-03-15T00:00:00+00:00")]
    ⟨true, rfl⟩ ⟨true, rfl⟩).2.1 ⟨2025, 1, 1, 0, 0, 0, some 0⟩
    "2025-03-15T00:00:00+00:00" ⟨2025, 3, 15, 0, 0, 0, some 0⟩ Ordering.gt
    rfl rfl rfl rfl (by decide)
